import Mathlib

/-!
Shallow embedding of `src/streamlit_app.py` (rtricta/ExportProxy).

The program is a Streamlit dashboard: a static company registry
(`COMPANY_MAP`), a data retriever (`fetch_ssb_data`) that POSTs a JSON
query to the SSB statistics API, parses the JSON-stat2 response into a
dataframe, derives a `date` column from the month code, sorts by date,
and a button handler that either invokes the retriever (source "SSB")
or shows a static Eurostat notice (source "EUROSTAT").

External effects (the HTTP POST, `pyjstat` parsing) are modelled by an
environment `Env` supplying the transport outcome and the parse oracle;
user-visible output and network activity are recorded as a list of
`Effect`s.  Dataframes are modelled as a column-name list plus rows of
cells.
-/

set_option maxRecDepth 100000

namespace ExportProxy

/-- A calendar date (as produced by `pd.to_datetime`); only year, month
and day matter here. -/
structure Date where
  year : Nat
  month : Nat
  day : Nat
deriving Repr, DecidableEq

/-- Non-decreasing order on dates, lexicographic on (year, month, day). -/
def Date.le (a b : Date) : Bool :=
  decide (a.year < b.year ∨ (a.year = b.year ∧
    (a.month < b.month ∨ (a.month = b.month ∧ a.day ≤ b.day))))

/-- A dataframe cell: either an original (string-valued) cell from the
parsed response, or a datetime produced by `pd.to_datetime`. -/
inductive Cell where
  | str (s : String)
  | date (d : Date)
deriving Repr, DecidableEq

/-- A pandas dataframe: named columns and row-major cells
(the `write` dataframe output of `pyjstat` is rectangular). -/
structure DataFrame where
  columns : List String
  rows : List (List Cell)
deriving Repr, DecidableEq

/-- Model of `pd.DataFrame()`: no columns, no rows. -/
def DataFrame.mkEmpty : DataFrame := ⟨[], []⟩

/-- Model of `df.empty`: true iff either axis has length zero. -/
def DataFrame.isEmpty (df : DataFrame) : Bool :=
  df.rows.isEmpty || df.columns.isEmpty

/-- Reading `df[name]` as a column: the cells of the first column called
`name`, or `none` (a `KeyError`) when absent. -/
def DataFrame.getCol (df : DataFrame) (name : String) : Option (List Cell) :=
  match df.columns.indexOf? name with
  | some i => some (df.rows.map (fun r => r.getD i (Cell.str "")))
  | none => none

/-- Assignment `df[name] = vals`: replace the column when present, else append it
on the right. -/
def DataFrame.setCol (df : DataFrame) (name : String) (vals : List Cell) :
    DataFrame :=
  match df.columns.indexOf? name with
  | some i =>
      ⟨df.columns, List.zipWith (fun r v => r.set i v) df.rows vals⟩
  | none =>
      ⟨df.columns ++ [name], List.zipWith (fun r v => r ++ [v]) df.rows vals⟩

/-- Numeric value of a decimal digit character. -/
def digitVal (c : Char) : Nat := c.toNat - '0'.toNat

/-- Representability of the first-of-month timestamp `(y, m, 1)` as a
pandas `datetime64[ns]` value: it must lie between `pd.Timestamp.min`
(1677-09-21T00:12:43.145224193) and `pd.Timestamp.max`
(2262-04-11T23:47:16.854775807).  With day 1 and midnight time this
holds exactly for 1677-10 through 2262-04; outside it `pd.to_datetime`
raises `OutOfBoundsDatetime` (and year 0 already fails in strptime,
below the lower bound anyway). -/
def inTimestampBounds (y m : Nat) : Bool :=
  decide ((1677 < y ∨ (y = 1677 ∧ 10 ≤ m)) ∧ (y < 2262 ∨ (y = 2262 ∧ m ≤ 4)))

/-- Model of `pd.to_datetime` with format `%YM%m` on one string: exactly four
digits, a literal `M`, then a one- or two-digit month `1..12`
(strptime month pattern `1[0-2]|0[1-9]|[1-9]`, whole string consumed),
and the resulting first-of-month timestamp must be representable in
`datetime64[ns]`, else the call raises (`OutOfBoundsDatetime`).
The day-of-month defaults to 1. -/
def parseMonthCode (s : String) : Option Date :=
  match s.toList with
  | y1 :: y2 :: y3 :: y4 :: 'M' :: rest =>
      if y1.isDigit && y2.isDigit && y3.isDigit && y4.isDigit then
        let y := ((digitVal y1 * 10 + digitVal y2) * 10 + digitVal y3) * 10
                  + digitVal y4
        match rest with
        | [m1] =>
            if '1' ≤ m1 && m1 ≤ '9' then
              if inTimestampBounds y (digitVal m1) then
                some ⟨y, digitVal m1, 1⟩
              else none
            else none
        | [m1, m2] =>
            if m1 = '1' && '0' ≤ m2 && m2 ≤ '2' then
              if inTimestampBounds y (10 + digitVal m2) then
                some ⟨y, 10 + digitVal m2, 1⟩
              else none
            else if m1 = '0' && '1' ≤ m2 && m2 ≤ '9' then
              if inTimestampBounds y (digitVal m2) then
                some ⟨y, digitVal m2, 1⟩
              else none
            else none
        | _ => none
      else none
  | _ => none

/-- The `pd.to_datetime` conversion applied to one month cell: a string cell is parsed
with the format, an already-datetime cell passes through. -/
def parseCellDate (c : Cell) : Option Cell :=
  match c with
  | Cell.str s => (parseMonthCode s).map Cell.date
  | Cell.date d => some (Cell.date d)

/-- The statement `df["date"] = pd.to_datetime(df["month"], "%YM%m")`:
`KeyError` if there is no `month` column, `ValueError` if any month
cell fails to parse, otherwise the dataframe with the derived `date`
column assigned. -/
def addDateColumn (df : DataFrame) : Except String DataFrame :=
  match df.getCol "month" with
  | none => .error "KeyError: month"
  | some mcells =>
      match mcells.mapM parseCellDate with
      | none => .error "ValueError: to_datetime"
      | some dates => .ok (df.setCol "date" dates)

/-- Sort key of a row for `df.sort_values("date")`: the date stored in
the `date` column (every row carries one on the path that sorts). -/
def rowDateKey (cols : List String) (r : List Cell) : Date :=
  match cols.indexOf? "date" with
  | some i =>
      match r.getD i (Cell.str "") with
      | Cell.date d => d
      | Cell.str _ => ⟨0, 0, 0⟩
  | none => ⟨0, 0, 0⟩

/-- Row comparison used by `df.sort_values("date")`. -/
def rowDateLe (cols : List String) (a b : List Cell) : Bool :=
  Date.le (rowDateKey cols a) (rowDateKey cols b)

/-- Model of `df = df.sort_values("date")`. -/
def sortByDate (df : DataFrame) : DataFrame :=
  ⟨df.columns, df.rows.mergeSort (rowDateLe df.columns)⟩

/-- One selection of the JSON query body:
`{"filter": ..., "values": [...]}`. -/
structure Selection where
  filter : String
  values : List String
deriving Repr, DecidableEq

/-- One item of the `query` list: `{"code": ..., "selection": ...}`. -/
structure QueryItem where
  code : String
  selection : Selection
deriving Repr, DecidableEq

/-- The JSON body POSTed to the SSB table-08799 endpoint. -/
structure Payload where
  query : List QueryItem
  responseFormat : String
deriving Repr, DecidableEq

/-- The `payload` dict literal of `fetch_ssb_data`: product codes with
an item filter, `ImpEks = ["2"]` (exports) with an item filter,
`Tid = ["60"]` with a `top` filter, response format `json-stat2`. -/
def buildPayload (hs_codes : List String) : Payload :=
  { query :=
      [ ⟨"Varekoder", ⟨"item", hs_codes⟩⟩,
        ⟨"ImpEks", ⟨"item", ["2"]⟩⟩,
        ⟨"Tid", ⟨"top", ["60"]⟩⟩ ],
    responseFormat := "json-stat2" }

/-- An observable action of the program: the outbound POST, or one of
the Streamlit rendering calls. -/
inductive Effect where
  | netPost (p : Payload)
  | stError (msg : String)
  | stWarning (msg : String)
  | stMarkdown (msg : String)
  | stSubheader (msg : String)
  | stLineChart (metricCol : String)
  | stWrite (msg : String)
  | stDataframe (rows : List (List Cell))
  | stSuccess (msg : String)
deriving Repr, DecidableEq

/-- The external world as `fetch_ssb_data` sees it: the outcome of
`requests.post` (`none` models a raised network error, otherwise the
HTTP status code and body text), and the `pyjstat` parse oracle
mapping a body to a dataframe or a parse failure. -/
structure Env where
  post : Payload → Option (Nat × String)
  parse : String → Except String DataFrame

/-- Model of `res.raise_for_status()`: raises exactly on 4xx/5xx status codes. -/
def raiseForStatus (code : Nat) : Bool :=
  decide (400 ≤ code ∧ code < 600)

/-- The `try` block of `fetch_ssb_data`: POST the payload, check the
status, parse the body, and on a non-empty dataframe derive the `date`
column and sort; an empty parse result returns `pd.DataFrame()`.
Every raised exception is an `error`. -/
def fetchTry (env : Env) (hs_codes : List String) : Except String DataFrame :=
  match env.post (buildPayload hs_codes) with
  | none => .error "ConnectionError"
  | some (code, body) =>
      if raiseForStatus code then .error "HTTPError"
      else
        match env.parse body with
        | .error e => .error e
        | .ok df =>
            if !df.isEmpty then
              match addDateColumn df with
              | .error e => .error e
              | .ok df2 => .ok (sortByDate df2)
            else .ok DataFrame.mkEmpty

/-- Result of `fetch_ssb_data`: the returned dataframe together with
the effects it performed (the POST, and `st.error` on failure). -/
structure FetchResult where
  df : DataFrame
  effects : List Effect
deriving Repr

/-- Function `fetch_ssb_data(hs_codes)`: runs the `try` block; any exception is
caught, reported via `st.error`, and an empty dataframe is returned. -/
def fetch_ssb_data (env : Env) (hs_codes : List String) : FetchResult :=
  match fetchTry env hs_codes with
  | .ok df => ⟨df, [Effect.netPost (buildPayload hs_codes)]⟩
  | .error e =>
      ⟨DataFrame.mkEmpty,
       [Effect.netPost (buildPayload hs_codes),
        Effect.stError ("Error fetching SSB data: " ++ e)]⟩

/-- One entry of the company registry. -/
structure CompanyInfo where
  source : String
  codes : List String
  region : String
  desc : String
deriving Repr, DecidableEq

/-- The `COMPANY_MAP` dict literal. -/
def COMPANY_MAP : List (String × CompanyInfo) :=
  [ ("Borregaard (Norway)",
      ⟨"SSB", ["38040000"], "30",
       "Lignosulfonates (Lignin) from Sarpsborg"⟩),
    ("Norbit (Norway)",
      ⟨"SSB", ["90158000"], "50",
       "Sonar & Subsea mapping systems from Trøndelag"⟩),
    ("B&C Speakers (Italy)",
      ⟨"EUROSTAT", ["85182900"], "IT",
       "Raw Speaker Drivers (Florence Hub)"⟩),
    ("Powersoft (Italy)",
      ⟨"EUROSTAT", ["85184000"], "IT",
       "Rack Amplifiers (Florence/Bologna Hub)"⟩) ]

/-- Lookup `COMPANY_MAP[target]`: dict lookup; `none` models the `KeyError`
raised for an absent key. -/
def lookupCompany (target : String) : Option CompanyInfo :=
  (COMPANY_MAP.find? (fun kv => kv.1 = target)).map (fun kv => kv.2)

/-- The line `metric_col = "value" if "value" in df.columns else df.columns[-1]`. -/
def metricCol (df : DataFrame) : String :=
  if "value" ∈ df.columns then "value" else df.columns.getLastD ""

/-- The static Eurostat notice rendered for EUROSTAT entries. -/
def eurostatEffects : List Effect :=
  [ Effect.stWarning "⚠️ **Eurostat API Notice:**",
    Effect.stMarkdown
      ("Direct access to Eurostat via simple API calls is complex due to "
       ++ "bulk download limits. For **B&C** and **Powersoft**, the best "
       ++ "free method is: 1. Go to Eurostat Comext Browser. 2. Filter "
       ++ "Reporter: **Italy**. 3. Filter Product: **85182900** (B&C) or "
       ++ "**85184000** (Powersoft). 4. Download the CSV and drop it into "
       ++ "your \x27Tancook\x27 app. *The Python script for Eurostat "
       ++ "requires the \x27eurostat\x27 library and 50+ lines of cleanup "
       ++ "code, which I can provide if you want to go deeper.*") ]

/-- Body of `if st.button("Run Export Analysis")`: branch on the
source of the entry, fetch and render for "SSB", show the static notice for
"EUROSTAT". Returns the effects performed. -/
def runAnalysis (env : Env) (info : CompanyInfo) : List Effect :=
  if info.source = "SSB" then
    let r := fetch_ssb_data env info.codes
    r.effects ++
      (if !r.df.isEmpty then
        [ Effect.stSubheader "Monthly Export Value (NOK)",
          Effect.stLineChart (metricCol r.df),
          Effect.stWrite "### Raw Data Sample",
          Effect.stDataframe (r.df.rows.drop (r.df.rows.length - 5)),
          Effect.stSuccess "💡 **Analyst Note:** Look for seasonality." ]
      else
        [ Effect.stWarning
            ("No data returned. The HS code might have changed or volume "
             ++ "is too low to report publicly this month.") ])
  else if info.source = "EUROSTAT" then
    eurostatEffects
  else []

/-! ### Sample environments used to instantiate the theorems -/

/-- A network that is down: `requests.post` raises. -/
def envDown : Env := ⟨fun _ => none, fun _ => .error "JSONStatError"⟩

/-- A server answering HTTP 500. -/
def env500 : Env := ⟨fun _ => some (500, "oops"), fun _ => .error "JSONStatError"⟩

/-- A well-formed single-row dataframe as `pyjstat` would produce it. -/
def sampleDF : DataFrame :=
  ⟨["month", "value"], [[Cell.str "2024M03", Cell.str "1234"]]⟩

/-- A healthy server whose body parses to `sampleDF`. -/
def envOk : Env := ⟨fun _ => some (200, "body"), fun _ => .ok sampleDF⟩

/-- A healthy server whose body parses to a zero-row dataframe. -/
def envNoRows : Env :=
  ⟨fun _ => some (200, "body"), fun _ => .ok ⟨["month", "value"], []⟩⟩

/-! ### Helper lemmas -/

theorem dateLe_trans (a b c : Date) (h1 : Date.le a b) (h2 : Date.le b c) :
    Date.le a c := by
  simp only [Date.le, decide_eq_true_eq] at *
  omega

theorem dateLe_total (a b : Date) : Date.le a b || Date.le b a := by
  simp only [Date.le, Bool.or_eq_true, decide_eq_true_eq]
  omega

theorem rowDateLe_trans (cols : List String) (a b c : List Cell)
    (h1 : rowDateLe cols a b) (h2 : rowDateLe cols b c) : rowDateLe cols a c :=
  dateLe_trans _ _ _ h1 h2

theorem rowDateLe_total (cols : List String) (a b : List Cell) :
    rowDateLe cols a b || rowDateLe cols b a :=
  dateLe_total _ _

/-- Sorting really sorts: the rows of `sortByDate df` are
pairwise non-decreasing under the date key. -/
theorem sortByDate_sorted (df : DataFrame) :
    (sortByDate df).rows.Pairwise (fun a b => rowDateLe df.columns a b = true) :=
  List.sorted_mergeSort
    (fun a b c => rowDateLe_trans df.columns a b c)
    (fun a b => rowDateLe_total df.columns a b) df.rows

/-- Sorting permutes the rows. -/
theorem sortByDate_perm (df : DataFrame) : (sortByDate df).rows.Perm df.rows :=
  List.mergeSort_perm df.rows _

/-- Option-valued `mapM` preserves length. -/
theorem mapM_option_length {α β : Type} (f : α → Option β) :
    ∀ (xs : List α) (ys : List β), xs.mapM f = some ys → ys.length = xs.length
  | [], ys, h => by
    rw [List.mapM_nil] at h
    simp only [Option.pure_def, Option.some.injEq] at h
    simp [← h]
  | x :: xs, ys, h => by
    rw [List.mapM_cons] at h
    cases hf : f x with
    | none => rw [hf] at h; simp at h
    | some b =>
        rw [hf] at h
        cases hm : xs.mapM f with
        | none => rw [hm] at h; simp at h
        | some bs =>
            rw [hm] at h
            simp at h
            simp [← h, mapM_option_length f xs bs hm]

/-- Every dataframe the `try` block returns successfully is either the
fresh empty dataframe or a sorted one. -/
theorem fetchTry_ok_cases (env : Env) (codes : List String) (df : DataFrame)
    (h : fetchTry env codes = .ok df) :
    df = DataFrame.mkEmpty ∨ ∃ df2, df = sortByDate df2 := by
  unfold fetchTry at h
  repeat' split at h
  all_goals first
    | exact Or.inl (Except.ok.inj h).symm
    | exact Or.inr ⟨_, (Except.ok.inj h).symm⟩
    | simp at h

/-! ### Claim theorems -/

/-- C1: any failure inside `fetch_ssb_data` — request construction,
transport (network failure or error HTTP status), or response parsing —
is caught inside the function, surfaced via `st.error`, and the
function returns the empty dataframe; being a total Lean function, the
model never propagates an exception to the caller. -/
theorem fetch_failure_caught (env : Env) (hs_codes : List String) (e : String)
    (h : fetchTry env hs_codes = .error e) :
    (fetch_ssb_data env hs_codes).df = DataFrame.mkEmpty ∧
    Effect.stError ("Error fetching SSB data: " ++ e)
      ∈ (fetch_ssb_data env hs_codes).effects := by
  simp [fetch_ssb_data, h]

/-- Witness for C1 at a mock HTTP-500 transport failure. -/
theorem fetch_failure_caught_witness :
    (fetch_ssb_data env500 ["38040000"]).df = DataFrame.mkEmpty ∧
    Effect.stError ("Error fetching SSB data: " ++ "HTTPError")
      ∈ (fetch_ssb_data env500 ["38040000"]).effects :=
  fetch_failure_caught env500 ["38040000"] "HTTPError" rfl

/-- C3 counterexample: the format-valid month code `"0001M01"` derives
no date at all — `pd.to_datetime` raises on it (year outside the
`datetime64[ns]` range), the exception is caught, and the retriever
yields the empty frame — so it does not yield the first day of
January of year 1 as the unqualified claim would demand. -/
theorem derived_date_first_of_month_cex :
    parseMonthCode "0001M01" = none ∧
    parseMonthCode "0001M01" ≠ some ⟨1, 1, 1⟩ := by decide

/-- C3 (amended): a month code made of a four-digit year, the literal
separator `M` and a two-digit month parses to the first day (day = 1)
of that month of that year whenever that first-of-month timestamp is
`datetime64[ns]`-representable (1677-10 through 2262-04); outside
those bounds the conversion raises, deriving no date, and is caught
like any parse failure.  In particular `"2024M03"` yields 2024-03-01.
(`addDateColumn` applies exactly this parse to the month cell of every
row.) -/
theorem derived_date_first_of_month (y1 y2 y3 y4 m1 m2 : Char)
    (hy : (y1.isDigit && y2.isDigit && y3.isDigit && y4.isDigit) = true)
    (hm : (m1 = '1' ∧ '0' ≤ m2 ∧ m2 ≤ '2') ∨ (m1 = '0' ∧ '1' ≤ m2 ∧ m2 ≤ '9')) :
    (inTimestampBounds
        (((digitVal y1 * 10 + digitVal y2) * 10 + digitVal y3) * 10
          + digitVal y4)
        (10 * digitVal m1 + digitVal m2) = true →
      parseMonthCode (String.mk [y1, y2, y3, y4, 'M', m1, m2]) =
        some ⟨((digitVal y1 * 10 + digitVal y2) * 10 + digitVal y3) * 10
                + digitVal y4,
              10 * digitVal m1 + digitVal m2, 1⟩) ∧
    (inTimestampBounds
        (((digitVal y1 * 10 + digitVal y2) * 10 + digitVal y3) * 10
          + digitVal y4)
        (10 * digitVal m1 + digitVal m2) = false →
      parseMonthCode (String.mk [y1, y2, y3, y4, 'M', m1, m2]) = none) ∧
    parseMonthCode "2024M03" = some ⟨2024, 3, 1⟩ := by
  refine ⟨?_, ?_, by decide⟩ <;> intro hb <;>
    rcases hm with ⟨h1, h2, h3⟩ | ⟨h1, h2, h3⟩ <;> subst h1 <;>
    simp [parseMonthCode, hy, h2, h3, digitVal] at hb ⊢ <;>
    simp [hb]

/-- Witness for C3 at the month code `"2024M03"`. -/
theorem derived_date_first_of_month_witness :
    (inTimestampBounds 2024 3 = true →
      parseMonthCode (String.mk ['2', '0', '2', '4', 'M', '0', '3']) =
        some ⟨2024, 3, 1⟩) ∧
    (inTimestampBounds 2024 3 = false →
      parseMonthCode (String.mk ['2', '0', '2', '4', 'M', '0', '3']) = none) ∧
    parseMonthCode "2024M03" = some ⟨2024, 3, 1⟩ :=
  derived_date_first_of_month '2' '0' '2' '4' '0' '3' (by decide)
    (Or.inr ⟨rfl, by decide, by decide⟩)

/-- C4: every invocation of `fetch_ssb_data` POSTs exactly one payload,
and that payload selects exactly: the given product codes under an
`item` filter, the fixed exports direction (`ImpEks = ["2"]`, `item`
filter), the most recent 60 periods (`Tid = ["60"]`, `top` filter),
with the response requested as `json-stat2`. -/
theorem fetch_payload_exact (env : Env) (hs_codes : List String) :
    Effect.netPost
        ⟨[⟨"Varekoder", ⟨"item", hs_codes⟩⟩,
          ⟨"ImpEks", ⟨"item", ["2"]⟩⟩,
          ⟨"Tid", ⟨"top", ["60"]⟩⟩], "json-stat2"⟩
      ∈ (fetch_ssb_data env hs_codes).effects ∧
    ∀ p, Effect.netPost p ∈ (fetch_ssb_data env hs_codes).effects →
      p = ⟨[⟨"Varekoder", ⟨"item", hs_codes⟩⟩,
            ⟨"ImpEks", ⟨"item", ["2"]⟩⟩,
            ⟨"Tid", ⟨"top", ["60"]⟩⟩], "json-stat2"⟩ := by
  unfold fetch_ssb_data
  cases h : fetchTry env hs_codes <;> simp [buildPayload]

/-- C2: invoked with the product codes of a supported (SSB) registry entry,
the retriever returns rows that are either empty or non-decreasing by
the derived date, whatever the transport and parse oracles do. -/
theorem fetch_sorted_by_date (env : Env) (name : String) (info : CompanyInfo)
    (_hmem : (name, info) ∈ COMPANY_MAP) (_hsrc : info.source = "SSB") :
    (fetch_ssb_data env info.codes).df.rows = [] ∨
    (fetch_ssb_data env info.codes).df.rows.Pairwise
      (fun a b =>
        rowDateLe (fetch_ssb_data env info.codes).df.columns a b = true) := by
  cases h : fetchTry env info.codes with
  | error e => simp [fetch_ssb_data, h, DataFrame.mkEmpty]
  | ok df =>
      rcases fetchTry_ok_cases env info.codes df h with rfl | ⟨df2, rfl⟩
      · simp [fetch_ssb_data, h, DataFrame.mkEmpty]
      · right
        simp only [fetch_ssb_data, h]
        exact sortByDate_sorted df2

/-- Witness for C2: the Borregaard entry against a down network. -/
theorem fetch_sorted_by_date_witness :
    (fetch_ssb_data envDown ["38040000"]).df.rows = [] ∨
    (fetch_ssb_data envDown ["38040000"]).df.rows.Pairwise
      (fun a b =>
        rowDateLe (fetch_ssb_data envDown ["38040000"]).df.columns a b
          = true) :=
  fetch_sorted_by_date envDown "Borregaard (Norway)"
    ⟨"SSB", ["38040000"], "30", "Lignosulfonates (Lignin) from Sarpsborg"⟩
    (by decide) rfl

/-- For an EUROSTAT entry the handler renders exactly the static
notice. -/
theorem runAnalysis_eurostat (env : Env) (info : CompanyInfo)
    (h : info.source = "EUROSTAT") : runAnalysis env info = eurostatEffects := by
  have hne : info.source ≠ "SSB" := by rw [h]; decide
  simp [runAnalysis, hne, h]

/-- C5: for every registry entry with the unsupported source kind
(EUROSTAT), the run-analysis handler performs no network POST and no
fetch; its output is exactly the static informational notice. -/
theorem eurostat_never_fetches (env : Env) (info : CompanyInfo)
    (h : info.source = "EUROSTAT") :
    runAnalysis env info = eurostatEffects ∧
    (∀ p, Effect.netPost p ∉ runAnalysis env info) ∧
    Effect.stWarning "⚠️ **Eurostat API Notice:**" ∈ runAnalysis env info := by
  refine ⟨runAnalysis_eurostat env info h, ?_, ?_⟩ <;>
    simp [runAnalysis_eurostat env info h, eurostatEffects]

/-- Witness for C5: the B&C Speakers entry with a healthy network. -/
theorem eurostat_never_fetches_witness :
    runAnalysis envOk
        ⟨"EUROSTAT", ["85182900"], "IT", "Raw Speaker Drivers (Florence Hub)"⟩
      = eurostatEffects ∧
    (∀ p, Effect.netPost p ∉
      runAnalysis envOk
        ⟨"EUROSTAT", ["85182900"], "IT",
         "Raw Speaker Drivers (Florence Hub)"⟩) ∧
    Effect.stWarning "⚠️ **Eurostat API Notice:**" ∈
      runAnalysis envOk
        ⟨"EUROSTAT", ["85182900"], "IT",
         "Raw Speaker Drivers (Florence Hub)"⟩ :=
  eurostat_never_fetches envOk
    ⟨"EUROSTAT", ["85182900"], "IT", "Raw Speaker Drivers (Florence Hub)"⟩ rfl

/-- C7: a well-formed response parsing to zero rows makes the
retriever return the empty dataframe with no `st.error`: a normal
non-error outcome, distinct from transport and parse failures. -/
theorem empty_parse_no_error (env : Env) (codes : List String)
    (code : Nat) (body : String) (df : DataFrame)
    (hp : env.post (buildPayload codes) = some (code, body))
    (hs : raiseForStatus code = false)
    (hb : env.parse body = .ok df)
    (hr : df.rows = []) :
    (fetch_ssb_data env codes).df = DataFrame.mkEmpty ∧
    ∀ m, Effect.stError m ∉ (fetch_ssb_data env codes).effects := by
  have ht : fetchTry env codes = .ok DataFrame.mkEmpty := by
    unfold fetchTry
    rw [hp]
    simp [hs, hb, DataFrame.isEmpty, hr]
  simp [fetch_ssb_data, ht]

/-- Witness for C7: a healthy server returning a zero-row table. -/
theorem empty_parse_no_error_witness :
    (fetch_ssb_data envNoRows ["38040000"]).df = DataFrame.mkEmpty ∧
    ∀ m, Effect.stError m ∉ (fetch_ssb_data envNoRows ["38040000"]).effects :=
  empty_parse_no_error envNoRows ["38040000"] 200 "body"
    ⟨["month", "value"], []⟩ rfl (by decide) rfl rfl

/-- C9: looking a present display name up in `COMPANY_MAP` yields its
entry; looking an absent name up fails (the modelled `KeyError`); the
lookup is a pure function, so it has no side effects. -/
theorem lookup_company_contract :
    (∀ name info, (name, info) ∈ COMPANY_MAP → lookupCompany name = some info) ∧
    (∀ name, name ∉ COMPANY_MAP.map Prod.fst → lookupCompany name = none) := by
  constructor
  · intro name info h
    fin_cases h <;> rfl
  · intro name h
    simp [COMPANY_MAP] at h
    obtain ⟨h1, h2, h3, h4⟩ := h
    simp [lookupCompany, COMPANY_MAP, List.find?, Ne.symm h1, Ne.symm h2,
      Ne.symm h3, Ne.symm h4]

/-- Witness for C9: a present name and an absent name. -/
theorem lookup_company_contract_witness :
    lookupCompany "Borregaard (Norway)" =
      some ⟨"SSB", ["38040000"], "30",
            "Lignosulfonates (Lignin) from Sarpsborg"⟩ ∧
    lookupCompany "Acme" = none :=
  ⟨lookup_company_contract.1 "Borregaard (Norway)" _ (by decide),
   lookup_company_contract.2 "Acme" (by decide)⟩

/-- The only POST `fetch_ssb_data` ever issues carries the payload
built from its argument codes. -/
theorem fetch_netPost_iff (env : Env) (codes : List String) (p : Payload) :
    Effect.netPost p ∈ (fetch_ssb_data env codes).effects ↔
      p = buildPayload codes := by
  unfold fetch_ssb_data
  cases h : fetchTry env codes <;> simp

/-- Any POST the handler issues carries the payload built from the
codes of the selected entry. -/
theorem runAnalysis_netPost (env : Env) (info : CompanyInfo) (p : Payload)
    (hp : Effect.netPost p ∈ runAnalysis env info) :
    p = buildPayload info.codes := by
  by_cases hssb : info.source = "SSB"
  · simp only [runAnalysis, hssb, if_pos, List.mem_append] at hp
    rcases hp with hp | hp
    · exact (fetch_netPost_iff env info.codes p).1 hp
    · exfalso
      split at hp <;> simp at hp
  · by_cases heur : info.source = "EUROSTAT"
    · rw [runAnalysis_eurostat env info heur] at hp
      simp [eurostatEffects] at hp
    · simp [runAnalysis, hssb, heur] at hp

/-- C10: every registry entry has non-empty product codes and a source
kind that is `"SSB"` or `"EUROSTAT"` (so the handler always takes
exactly one of its two branches); consequently every POST issued for a
registry entry carries the payload of its (non-empty) product codes. -/
theorem registry_invariants :
    (∀ name info, (name, info) ∈ COMPANY_MAP →
      info.codes ≠ [] ∧ (info.source = "SSB" ∨ info.source = "EUROSTAT")) ∧
    (∀ env name info p, (name, info) ∈ COMPANY_MAP →
      Effect.netPost p ∈ runAnalysis env info →
      p = buildPayload info.codes ∧ info.codes ≠ []) := by
  have h1 : ∀ name info, (name, info) ∈ COMPANY_MAP →
      info.codes ≠ [] ∧ (info.source = "SSB" ∨ info.source = "EUROSTAT") := by
    intro name info h
    fin_cases h <;> exact ⟨by decide, by decide⟩
  exact ⟨h1, fun env name info p hm hp =>
    ⟨runAnalysis_netPost env info p hp, (h1 name info hm).1⟩⟩

/-- Witness for C10: the Borregaard entry, whose handler run against a
down network still POSTs exactly its payload. -/
theorem registry_invariants_witness :
    (["38040000"] ≠ ([] : List String) ∧
      ("SSB" = "SSB" ∨ "SSB" = "EUROSTAT")) ∧
    (buildPayload ["38040000"] = buildPayload ["38040000"] ∧
      ["38040000"] ≠ ([] : List String)) :=
  ⟨registry_invariants.1 "Borregaard (Norway)"
      ⟨"SSB", ["38040000"], "30", "Lignosulfonates (Lignin) from Sarpsborg"⟩
      (by decide),
   registry_invariants.2 envDown "Borregaard (Norway)"
      ⟨"SSB", ["38040000"], "30", "Lignosulfonates (Lignin) from Sarpsborg"⟩
      (buildPayload ["38040000"]) (by decide) (by decide)⟩

/-- C6: for a well-formed non-empty parsed response of N rows, the
returned table has exactly N rows, its columns are the original ones
with the derived `date` column appended, and its rows are a
permutation (a mere reordering) of the original rows each extended by
its derived date — all original dimension and value cells unchanged. -/
theorem fetch_frame_effect (env : Env) (codes : List String)
    (code : Nat) (body : String) (df : DataFrame)
    (mcells dates : List Cell)
    (hp : env.post (buildPayload codes) = some (code, body))
    (hs : raiseForStatus code = false)
    (hb : env.parse body = .ok df)
    (hm : df.getCol "month" = some mcells)
    (hd : mcells.mapM parseCellDate = some dates)
    (hrows : df.rows ≠ []) (hcols : df.columns ≠ [])
    (hnodate : "date" ∉ df.columns) :
    (fetch_ssb_data env codes).df.columns = df.columns ++ ["date"] ∧
    (fetch_ssb_data env codes).df.rows.length = df.rows.length ∧
    (fetch_ssb_data env codes).df.rows.Perm
      (List.zipWith (fun r v => r ++ [v]) df.rows dates) := by
  have hmlen : mcells.length = df.rows.length := by
    unfold DataFrame.getCol at hm
    cases hidx : df.columns.indexOf? "month" with
    | none => rw [hidx] at hm; simp at hm
    | some i =>
        rw [hidx] at hm
        simp only [Option.some.injEq] at hm
        rw [← hm]
        simp
  have hdlen : dates.length = df.rows.length :=
    (mapM_option_length parseCellDate mcells dates hd).trans hmlen
  have hsetcol : df.setCol "date" dates =
      ⟨df.columns ++ ["date"],
       List.zipWith (fun r v => r ++ [v]) df.rows dates⟩ := by
    unfold DataFrame.setCol
    have hnone : df.columns.indexOf? "date" = none := by
      rw [List.indexOf?_eq_none_iff]
      intro x hx
      simp only [beq_iff_eq]
      intro hxe
      exact hnodate (hxe ▸ hx)
    rw [hnone]
  have hadd : addDateColumn df = .ok (df.setCol "date" dates) := by
    unfold addDateColumn
    rw [hm]
    simp only [List.mapM] at hd
    simp [hd]
  have hne : df.isEmpty = false := by
    simp [DataFrame.isEmpty, hrows, hcols]
  have ht : fetchTry env codes =
      .ok (sortByDate ⟨df.columns ++ ["date"],
        List.zipWith (fun r v => r ++ [v]) df.rows dates⟩) := by
    unfold fetchTry
    rw [hp]
    simp [hs, hb, hne, hadd, hsetcol]
  refine ⟨?_, ?_, ?_⟩ <;> simp only [fetch_ssb_data, ht]
  · rfl
  · simp [sortByDate, hdlen]
  · exact sortByDate_perm _

/-- Witness for C6: a healthy server returning one well-formed row. -/
theorem fetch_frame_effect_witness :
    (fetch_ssb_data envOk ["38040000"]).df.columns
      = ["month", "value"] ++ ["date"] ∧
    (fetch_ssb_data envOk ["38040000"]).df.rows.length
      = sampleDF.rows.length ∧
    (fetch_ssb_data envOk ["38040000"]).df.rows.Perm
      (List.zipWith (fun r v => r ++ [v]) sampleDF.rows
        [Cell.date ⟨2024, 3, 1⟩]) :=
  fetch_frame_effect envOk ["38040000"] 200 "body" sampleDF
    [Cell.str "2024M03"] [Cell.date ⟨2024, 3, 1⟩]
    rfl (by decide) rfl rfl rfl (by decide) (by decide) (by decide)

/-- C8: when the handler charts a non-empty result table, the column
it charts is `metricCol`, which is the column named `"value"` when one
is present and the last column otherwise. -/
theorem chart_metric_column (env : Env) (info : CompanyInfo)
    (h : info.source = "SSB")
    (hne : (fetch_ssb_data env info.codes).df.isEmpty = false) :
    (∀ c, Effect.stLineChart c ∈ runAnalysis env info ↔
      c = metricCol (fetch_ssb_data env info.codes).df) ∧
    ("value" ∈ (fetch_ssb_data env info.codes).df.columns →
      metricCol (fetch_ssb_data env info.codes).df = "value") ∧
    ("value" ∉ (fetch_ssb_data env info.codes).df.columns →
      metricCol (fetch_ssb_data env info.codes).df =
        (fetch_ssb_data env info.codes).df.columns.getLastD "") := by
  refine ⟨?_, fun hv => by simp [metricCol, hv],
    fun hv => by simp [metricCol, hv]⟩
  intro c
  cases hf : fetchTry env info.codes with
  | error e =>
      exfalso
      rw [show (fetch_ssb_data env info.codes).df = DataFrame.mkEmpty by
            simp [fetch_ssb_data, hf]] at hne
      simp [DataFrame.mkEmpty, DataFrame.isEmpty] at hne
  | ok df =>
      have hfe : fetch_ssb_data env info.codes
          = ⟨df, [Effect.netPost (buildPayload info.codes)]⟩ := by
        simp [fetch_ssb_data, hf]
      rw [hfe] at hne ⊢
      simp [runAnalysis, h, hfe, hne, eq_comm]

/-- Witness for C8: a healthy single-row response charted for
the Borregaard entry. -/
theorem chart_metric_column_witness :
    (∀ c, Effect.stLineChart c ∈
        runAnalysis envOk
          ⟨"SSB", ["38040000"], "30",
           "Lignosulfonates (Lignin) from Sarpsborg"⟩ ↔
      c = metricCol (fetch_ssb_data envOk ["38040000"]).df) ∧
    ("value" ∈ (fetch_ssb_data envOk ["38040000"]).df.columns →
      metricCol (fetch_ssb_data envOk ["38040000"]).df = "value") ∧
    ("value" ∉ (fetch_ssb_data envOk ["38040000"]).df.columns →
      metricCol (fetch_ssb_data envOk ["38040000"]).df =
        (fetch_ssb_data envOk ["38040000"]).df.columns.getLastD "") :=
  chart_metric_column envOk
    ⟨"SSB", ["38040000"], "30", "Lignosulfonates (Lignin) from Sarpsborg"⟩
    rfl
    (by
      have h1 : fetchTry envOk ["38040000"] =
          .ok (sortByDate ⟨["month", "value", "date"],
            [[Cell.str "2024M03", Cell.str "1234",
              Cell.date ⟨2024, 3, 1⟩]]⟩) := rfl
      simp [fetch_ssb_data, h1, sortByDate, DataFrame.isEmpty])

end ExportProxy
